import Mathlib

/-!
A shallow embedding of `test_suite/saddle_point_problem.py` (class
`SaddlePointProblem`) and proofs about it.

Modelling conventions:
* numpy 1-D arrays are `List ℚ`; scalars are `ℚ` (the idealised arithmetic of
  the Python floats used by the source);
* the mutable fields of a `SaddlePointProblem` instance (`_D_x`, `_D_y`,
  `_run`, `_num_fevals`, `_x_opt`, `_y_opt`) form the record `ProblemState`,
  threaded explicitly through the stateful operations;
* the abstract methods `_call_fct` / `_fct` (implemented by subclasses, not
  present in this file of the source) and the subclass accessors
  `get_unit_x_opt` / `get_unit_y_opt` are parameters, collected in
  `ProblemFns`;
* the three external optimizers (`scipy.optimize.basinhopping`,
  `minimizers.cmaes.CMAES`, `scipy.optimize.differential_evolution`) are
  opaque oracles, collected in `Minimizers`: each receives exactly the
  arguments the source passes at its call site and returns the minimum value
  it found (`ret.fun` / `res[1]`);
* a Python `raise` or a failed `assert` is an `Except.error` carrying the
  source's message string.
-/

namespace SaddlePointProblem

/-- The mutable/instance state of a `SaddlePointProblem` object: the fields
set in `__init__` (source lines 12-18). -/
structure ProblemState where
  D_x : Nat
  D_y : Nat
  run : Nat
  num_fevals : Nat
  x_opt : Option (List ℚ)
  y_opt : Option (List ℚ)

/-- The subclass-provided capabilities of a problem: `_call_fct` (the
preprocessed, unit-cube evaluator, source lines 141-148), `_fct` (the raw
native-space evaluator, source lines 150-151), and the unit-cube optimum
accessors used by `mse`.

Modelled from the spec: `get_unit_x_opt` / `get_unit_y_opt` are implemented
only by problem subclasses (absent from this source file); per the spec they
return the known optimum expressed in unit-cube coordinates, so they are
modelled as the fields `unit_x_opt` / `unit_y_opt`. -/
structure ProblemFns where
  call_fct : List ℚ → List ℚ → ℚ
  fct : List ℚ → List ℚ → ℚ
  unit_x_opt : List ℚ
  unit_y_opt : List ℚ

/-- The three external optimization routines used by `_worst`, as opaque
oracles. Each field's arguments mirror the source call site:
* `basinhopping f y0 bounds` — objective, seed `x0=y0`,
  `minimizer_kwargs` bounds; returns `ret.fun` (minimum found);
* `cmaes f dim y0 is_restart max_fevals` — the `CMAES(...)` constructor
  arguments followed by `.run()`; returns `res[1]` (best value found);
* `differential_evolution f bounds` — objective and bounds; returns
  `ret.fun`. -/
structure Minimizers where
  basinhopping : (List ℚ → ℚ) → List ℚ → List (ℚ × ℚ) → ℚ
  cmaes : (List ℚ → ℚ) → Nat → List ℚ → Bool → ℚ → ℚ
  differential_evolution : (List ℚ → ℚ) → List (ℚ × ℚ) → ℚ

/-- Machine epsilon of single precision, `np.finfo(np.float32).eps`. -/
def eps32 : ℚ := 1 / 2 ^ 23

/-- The `__init__` constructor (source lines 12-18). -/
def init (D_x D_y : Nat) : ProblemState :=
  ⟨D_x, D_y, 0, 0, none, none⟩

/-- Source lines 32-46: `evaluate` calls `_call_fct` and, when `is_log` is
true, increments `_num_fevals` by one. It performs no dimension check. -/
def evaluate (P : ProblemFns) (s : ProblemState) (x y : List ℚ) (is_log : Bool) :
    ℚ × ProblemState :=
  let f_val := P.call_fct x y
  (f_val, if is_log then { s with num_fevals := s.num_fevals + 1 } else s)

/-- The closure `f_y = lambda y: - self.evaluate(x0, y)` built by `_worst`
(source line 56); `is_log` defaults to `True` in the source. -/
def f_y_obj (P : ProblemFns) (s : ProblemState) (x0 : List ℚ) : List ℚ → ℚ :=
  fun y => - (evaluate P s x0 y true).1

/-- The bounds list `[(0, 1)] * self._D_y` (source lines 58 and 65). -/
def unitBounds (s : ProblemState) : List (ℚ × ℚ) :=
  List.replicate s.D_y ((0 : ℚ), (1 : ℚ))

/-- Source lines 48-68: `_worst` runs the three strategies sequentially
against the negated objective and folds their (negated-back) best values
with `max`. -/
def worst (M : Minimizers) (P : ProblemFns) (s : ProblemState) (x0 y0 : List ℚ) : ℚ :=
  let f_y := f_y_obj P s x0
  let f_worst := - M.basinhopping f_y y0 (unitBounds s)
  let f_worst := max (- M.cmaes f_y y0.length y0 true 1000) f_worst
  let f_worst := max (- M.differential_evolution f_y (unitBounds s)) f_worst
  f_worst

/-- The basin-hopping strategy's best value, negated back to the original
sign convention (source lines 58-59). -/
def basinhopping_best (M : Minimizers) (P : ProblemFns) (s : ProblemState)
    (x0 y0 : List ℚ) : ℚ :=
  - M.basinhopping (f_y_obj P s x0) y0 (unitBounds s)

/-- The CMA-ES strategy's best value, negated back (source lines 61-62). -/
def cmaes_best (M : Minimizers) (P : ProblemFns) (s : ProblemState)
    (x0 y0 : List ℚ) : ℚ :=
  - M.cmaes (f_y_obj P s x0) y0.length y0 true 1000

/-- The differential-evolution strategy's best value, negated back (source
lines 65-66). -/
def de_best (M : Minimizers) (P : ProblemFns) (s : ProblemState)
    (x0 y0 : List ℚ) : ℚ :=
  - M.differential_evolution (f_y_obj P s x0) (unitBounds s)

/-- C1: for every fixed `x0` and seed `y0`, `_worst` returns the maximum of
the best values found by the three strategies — basin-hopping seeded at
`y0`, CMA-ES seeded at `y0` with restarts and a 1000-evaluation cap, and
unseeded differential evolution — each run against the negated objective and
negated back before the maximum is taken: the result dominates each
strategy's value and equals one of them. -/
theorem worst_is_max_of_three (M : Minimizers) (P : ProblemFns)
    (s : ProblemState) (x0 y0 : List ℚ) :
    basinhopping_best M P s x0 y0 ≤ worst M P s x0 y0
    ∧ cmaes_best M P s x0 y0 ≤ worst M P s x0 y0
    ∧ de_best M P s x0 y0 ≤ worst M P s x0 y0
    ∧ (worst M P s x0 y0 = basinhopping_best M P s x0 y0
       ∨ worst M P s x0 y0 = cmaes_best M P s x0 y0
       ∨ worst M P s x0 y0 = de_best M P s x0 y0) := by
  have h : worst M P s x0 y0
      = max (de_best M P s x0 y0)
          (max (cmaes_best M P s x0 y0) (basinhopping_best M P s x0 y0)) := rfl
  rw [h]
  generalize basinhopping_best M P s x0 y0 = a
  generalize cmaes_best M P s x0 y0 = b
  generalize de_best M P s x0 y0 = c
  refine ⟨le_trans (le_max_right b a) (le_max_right c _),
    le_trans (le_max_left b a) (le_max_right c _), le_max_left c _, ?_⟩
  rcases max_choice c (max b a) with hc | hba
  · exact Or.inr (Or.inr hc)
  · rw [hba]
    rcases max_choice b a with hb | ha
    · exact Or.inr (Or.inl hb)
    · exact Or.inl ha

/-- Source lines 160-161: `get_num_fevals` reads the evaluation counter. -/
def get_num_fevals (s : ProblemState) : Nat :=
  s.num_fevals

/-- Source lines 157-158: `get_run` reads the run index. -/
def get_run (s : ProblemState) : Nat :=
  s.run

/-- Source lines 153-155: `next_run` does `self._run += 0` and
`self._num_fevals = 0`. -/
def next_run (s : ProblemState) : ProblemState :=
  { s with run := s.run + 0, num_fevals := 0 }

/-- Iterated calls of `evaluate` with fixed arguments and log flag,
discarding the returned values (used to state the counter property). -/
def iterEval (P : ProblemFns) (x y : List ℚ) (b : Bool) :
    Nat → ProblemState → ProblemState
  | 0, s => s
  | n + 1, s => iterEval P x y b n (evaluate P s x y b).2

theorem iterEval_unlogged (P : ProblemFns) (x y : List ℚ) :
    ∀ (n : Nat) (s : ProblemState), iterEval P x y false n s = s
  | 0, _ => rfl
  | n + 1, s => iterEval_unlogged P x y n s

theorem iterEval_logged (P : ProblemFns) (x y : List ℚ) :
    ∀ (n : Nat) (s : ProblemState),
      (iterEval P x y true n s).num_fevals = s.num_fevals + n
  | 0, _ => rfl
  | n + 1, s => by
      have h := iterEval_logged P x y n (evaluate P s x y true).2
      simpa [iterEval, evaluate, Nat.add_assoc, Nat.add_comm 1 n] using h

/-- C3: unlogged `evaluate` calls leave `get_num_fevals` unchanged for any
number of repetitions; `n` logged calls increase it by exactly `n`; and a
single logged call increments the counter by exactly one, from any starting
counter state. -/
theorem evaluate_feval_count (P : ProblemFns) (x y : List ℚ) (n : Nat)
    (s : ProblemState) :
    get_num_fevals (iterEval P x y false n s) = get_num_fevals s
    ∧ get_num_fevals (iterEval P x y true n s) = get_num_fevals s + n
    ∧ get_num_fevals (evaluate P s x y true).2 = get_num_fevals s + 1
    ∧ get_num_fevals (evaluate P s x y false).2 = get_num_fevals s := by
  refine ⟨?_, iterEval_logged P x y n s, rfl, rfl⟩
  rw [iterEval_unlogged]

/-- C9: `next_run` zeroes the evaluation counter, adds zero to the run index
(leaving it unchanged), and leaves the dimensionalities and the known
optimum untouched; from a freshly constructed state, run index and counter
both read zero after `next_run`. -/
theorem next_run_spec (s : ProblemState) (a b : Nat) :
    get_num_fevals (next_run s) = 0
    ∧ get_run (next_run s) = get_run s
    ∧ (next_run s).D_x = s.D_x
    ∧ (next_run s).D_y = s.D_y
    ∧ (next_run s).x_opt = s.x_opt
    ∧ (next_run s).y_opt = s.y_opt
    ∧ get_run (next_run (init a b)) = 0
    ∧ get_num_fevals (next_run (init a b)) = 0 :=
  ⟨rfl, Nat.add_zero s.run, rfl, rfl, rfl, rfl, rfl, rfl⟩

/-- Source lines 70-83: `relative_robustness` asserts the dimensions of `x0`
and `y0`, computes `f_0` through the logged `evaluate`, `f_worst` through
`_worst`, and asserts the resulting ratio is nonnegative before returning
it. A failed Python `assert` is modelled as `Except.error` with the
assertion's message; the second component is the instance state after the
call (the opaque counter increments performed inside the external optimizers
of `_worst` are not modelled). -/
def relative_robustness (M : Minimizers) (P : ProblemFns) (s : ProblemState)
    (x0 y0 : List ℚ) : Except String ℚ × ProblemState :=
  if x0.length = s.D_x then
    if y0.length = s.D_y then
      let r1 := evaluate P s x0 y0 true
      let f_0 := r1.1
      let s1 := r1.2
      let f_worst := worst M P s1 x0 y0
      let robustness := (f_worst - f_0) / (|f_0| + eps32)
      if 0 ≤ robustness then (Except.ok robustness, s1)
      else (Except.error "Maximizing worst-case returned a value better than the present worse: >= is expected", s1)
    else (Except.error "Invalid dimensions", s)
  else (Except.error "Invalid dimensions", s)

/-- C2: for every `(x0, y0)` of the declared dimensions,
`relative_robustness` returns `(f_worst - f_0) / (|f_0| + eps)` where `f_0`
is the logged evaluation at `(x0, y0)`, `f_worst` the worst-case search
value, and `eps` single-precision machine epsilon; a normal return is
nonnegative, a negative ratio instead producing a fatal assertion failure. -/
theorem relative_robustness_spec (M : Minimizers) (P : ProblemFns)
    (s : ProblemState) (x0 y0 : List ℚ) (r : ℚ)
    (hx : x0.length = s.D_x) (hy : y0.length = s.D_y)
    (hr : r = (worst M P (evaluate P s x0 y0 true).2 x0 y0
        - (evaluate P s x0 y0 true).1)
      / (|(evaluate P s x0 y0 true).1| + eps32)) :
    (0 ≤ r → (relative_robustness M P s x0 y0).1 = Except.ok r)
    ∧ (r < 0 → (relative_robustness M P s x0 y0).1
        = Except.error "Maximizing worst-case returned a value better than the present worse: >= is expected")
    ∧ (∀ v, (relative_robustness M P s x0 y0).1 = Except.ok v → 0 ≤ v) := by
  subst hr
  unfold relative_robustness
  rw [if_pos hx, if_pos hy]
  by_cases h : 0 ≤ (worst M P (evaluate P s x0 y0 true).2 x0 y0
      - (evaluate P s x0 y0 true).1) / (|(evaluate P s x0 y0 true).1| + eps32)
  · rw [if_pos h]
    exact ⟨fun _ => rfl, fun hneg => absurd h (not_le.mpr hneg),
      fun v hv => by cases hv; exact h⟩
  · rw [if_neg h]
    exact ⟨fun hpos => absurd hpos h, fun _ => rfl, by simp⟩

/-- Source lines 85-109: `relative_loss` requires a known `x_opt`, computes
`f_0` through the *uncounted* `_call_fct` and `f_opt` through the raw
`_fct`, warns (non-fatally) when the raw loss is negative, and returns
`max(0, loss)`. The result pairs the value with a flag recording whether the
warning was emitted; the second component of the outer pair is the instance
state after the call. When `x_opt` is set but `y_opt` is not — a state
outside the data model's both-or-neither invariant — the source would pass
`None` into `_fct`; the model substitutes `[]`, and no theorem below relies
on that corner. -/
def relative_loss (P : ProblemFns) (s : ProblemState) (x0 y0 : List ℚ) :
    Except String (ℚ × Bool) × ProblemState :=
  match s.x_opt with
  | none => (Except.error "saddle point solution is not known, this metric cant be computed", s)
  | some xopt =>
      let f_0 := P.call_fct x0 y0
      let f_opt := P.fct xopt (s.y_opt.getD [])
      let loss := (f_0 - f_opt) / (|f_opt| + eps32)
      (Except.ok (max 0 loss, decide (loss < 0)), s)

/-- C6: on a problem with a known optimum, a negative raw loss makes
`relative_loss` emit a non-fatal warning (the flag) and return 0; in every
case the returned value is `max 0 loss`, hence never negative. -/
theorem relative_loss_spec (P : ProblemFns) (s : ProblemState)
    (x0 y0 xo yo : List ℚ) (l : ℚ)
    (hx : s.x_opt = some xo) (hy : s.y_opt = some yo)
    (hl : l = (P.call_fct x0 y0 - P.fct xo yo) / (|P.fct xo yo| + eps32)) :
    (relative_loss P s x0 y0).1 = Except.ok (max 0 l, decide (l < 0))
    ∧ (l < 0 → (relative_loss P s x0 y0).1 = Except.ok (0, true))
    ∧ (∀ v w, (relative_loss P s x0 y0).1 = Except.ok (v, w) → 0 ≤ v) := by
  subst hl
  have hgoal : (relative_loss P s x0 y0).1
      = Except.ok (max 0 ((P.call_fct x0 y0 - P.fct xo yo)
          / (|P.fct xo yo| + eps32)),
        decide ((P.call_fct x0 y0 - P.fct xo yo)
          / (|P.fct xo yo| + eps32) < 0)) := by
    unfold relative_loss
    rw [hx]
    simp [hy]
  refine ⟨hgoal, fun hneg => ?_, fun v w hv => ?_⟩
  · rw [hgoal, max_eq_left (le_of_lt hneg), decide_eq_true hneg]
  · rw [hgoal] at hv
    cases hv
    exact le_max_left 0 _

/-- C10: `relative_loss` computes `f_0` via `_call_fct` and `f_opt` via
`_fct`, neither of which goes through the counting `evaluate` wrapper, so on
a problem with a known optimum the instance state — in particular the value
read by `get_num_fevals` — is identical before and after the call. -/
theorem relative_loss_frame (P : ProblemFns) (s : ProblemState)
    (x0 y0 xo : List ℚ) (hx : s.x_opt = some xo) :
    (relative_loss P s x0 y0).2 = s
    ∧ get_num_fevals (relative_loss P s x0 y0).2 = get_num_fevals s := by
  unfold relative_loss
  rw [hx]
  exact ⟨rfl, rfl⟩

/-- The value of `np.mean` on a 1-D array. -/
def npMean (l : List ℚ) : ℚ :=
  l.sum / l.length

/-- Elementwise `(a - b) ** 2` of two equal-length 1-D arrays. -/
def sqDiff (a b : List ℚ) : List ℚ :=
  List.zipWith (fun u v => (u - v) ^ 2) a b

/-- The subclass accessor `get_unit_x_opt` used by `mse` (source line 122).

Modelled from the spec: the accessor itself is not in this source file; per
the spec it returns x* in unit-cube coordinates, here the field
`unit_x_opt`. -/
def get_unit_x_opt (P : ProblemFns) : List ℚ :=
  P.unit_x_opt

/-- The subclass accessor `get_unit_y_opt` used by `mse` (source line 123).

Modelled from the spec: the accessor itself is not in this source file; per
the spec it returns y* in unit-cube coordinates, here the field
`unit_y_opt`. -/
def get_unit_y_opt (P : ProblemFns) : List ℚ :=
  P.unit_y_opt

/-- Source lines 111-125: `mse` requires both optima and returns the pair of
mean squared coordinate-wise deviations, computed in unit-cube
coordinates. -/
def mse (P : ProblemFns) (s : ProblemState) (x0 y0 : List ℚ) :
    Except String (ℚ × ℚ) :=
  if s.x_opt = none ∨ s.y_opt = none then
    Except.error "saddle point solution is not known, this metric cant be computed"
  else
    Except.ok (npMean (sqDiff (get_unit_x_opt P) x0),
      npMean (sqDiff (get_unit_y_opt P) y0))

theorem sqDiff_sum_nonneg : ∀ (a b : List ℚ), 0 ≤ (sqDiff a b).sum
  | [], _ => le_rfl
  | _ :: _, [] => le_rfl
  | u :: a, v :: b => by
      have ih := sqDiff_sum_nonneg a b
      simpa [sqDiff] using add_nonneg (sq_nonneg (u - v)) ih

theorem npMean_sqDiff_nonneg (a b : List ℚ) : 0 ≤ npMean (sqDiff a b) :=
  div_nonneg (sqDiff_sum_nonneg a b) (by exact_mod_cast Nat.zero_le _)

theorem sqDiff_self (l : List ℚ) : (sqDiff l l).sum = 0 := by
  induction l with
  | nil => rfl
  | cons a l ih => simp [sqDiff]

/-- C7: on a problem with a known optimum, `mse` returns the pair of mean
squared coordinate-wise deviations of `x0` from x* and `y0` from y* in
unit-cube coordinates; both components are nonnegative, and at the unit-cube
optimum itself the result is exactly `(0, 0)`. The length hypotheses mirror
numpy: elementwise subtraction needs matching shapes, and `np.mean` of an
empty array is not a number (dimensionalities are positive by the data
model). -/
theorem mse_spec (P : ProblemFns) (s : ProblemState) (x0 y0 : List ℚ)
    (hx : s.x_opt ≠ none) (hy : s.y_opt ≠ none)
    (hlx : x0.length = (get_unit_x_opt P).length)
    (hly : y0.length = (get_unit_y_opt P).length)
    (hpx : 0 < (get_unit_x_opt P).length)
    (hpy : 0 < (get_unit_y_opt P).length) :
    mse P s x0 y0 = Except.ok (npMean (sqDiff (get_unit_x_opt P) x0),
      npMean (sqDiff (get_unit_y_opt P) y0))
    ∧ (∀ a b, mse P s x0 y0 = Except.ok (a, b) → 0 ≤ a ∧ 0 ≤ b)
    ∧ mse P s (get_unit_x_opt P) (get_unit_y_opt P) = Except.ok (0, 0) := by
  have hguard : ¬ (s.x_opt = none ∨ s.y_opt = none) := by
    rintro (h | h)
    · exact hx h
    · exact hy h
  have hok : ∀ u v : List ℚ, mse P s u v
      = Except.ok (npMean (sqDiff (get_unit_x_opt P) u),
        npMean (sqDiff (get_unit_y_opt P) v)) := by
    intro u v
    unfold mse
    rw [if_neg hguard]
  refine ⟨hok x0 y0, fun a b hab => ?_, ?_⟩
  · rw [hok x0 y0] at hab
    cases hab
    exact ⟨npMean_sqDiff_nonneg _ _, npMean_sqDiff_nonneg _ _⟩
  · rw [hok (get_unit_x_opt P) (get_unit_y_opt P)]
    rw [npMean, npMean, sqDiff_self, sqDiff_self]
    norm_num

/-- Source lines 127-139: `regret` requires a known saddle point (the source
raises — via `raise NotImplemented(...)`, which at runtime surfaces as an
exception either way — when either optimum is absent) and otherwise returns
`max(0, _worst(x0, y0) - _fct(x_opt, y_opt))`. -/
def regret (M : Minimizers) (P : ProblemFns) (s : ProblemState)
    (x0 y0 : List ℚ) : Except String ℚ :=
  if s.x_opt = none ∨ s.y_opt = none then
    Except.error "This is problem-dependent, knowledge about the saddle point is required"
  else
    Except.ok (max 0 (worst M P s x0 y0
      - P.fct (s.x_opt.getD []) (s.y_opt.getD [])))

/-- C5: `regret` fails hard when the problem has no known saddle point, and
otherwise returns `max 0 (W - f_opt)` with `W` the worst-case search value
for `x0` seeded at `y0` and `f_opt` the raw evaluation at `(x*, y*)`; every
normal return is nonnegative. -/
theorem regret_spec (M : Minimizers) (P : ProblemFns) (s : ProblemState)
    (x0 y0 : List ℚ) :
    (s.x_opt = none ∨ s.y_opt = none → regret M P s x0 y0
      = Except.error "This is problem-dependent, knowledge about the saddle point is required")
    ∧ (∀ xo yo, s.x_opt = some xo → s.y_opt = some yo → regret M P s x0 y0
        = Except.ok (max 0 (worst M P s x0 y0 - P.fct xo yo)))
    ∧ (∀ v, regret M P s x0 y0 = Except.ok v → 0 ≤ v) := by
  refine ⟨fun h => ?_, fun xo yo hxo hyo => ?_, fun v hv => ?_⟩
  · unfold regret
    rw [if_pos h]
  · unfold regret
    rw [if_neg (by simp [hxo, hyo]), hxo, hyo]
    rfl
  · unfold regret at hv
    by_cases h : s.x_opt = none ∨ s.y_opt = none
    · rw [if_pos h] at hv
      cases hv
    · rw [if_neg h] at hv
      cases hv
      exact le_max_left 0 _

/-- A concrete toy problem used for witnesses and counterexamples: the
spec's scenario `f(x, y) = (x - 1/2) * (y - 1/2)` on the unit square, whose
saddle point is `(1/2, 1/2)` with value 0; the domain already is the unit
cube, so the raw and preprocessed evaluators coincide. -/
def toyFns : ProblemFns :=
  ⟨fun x y => (x.headD 0 - 1 / 2) * (y.headD 0 - 1 / 2),
   fun x y => (x.headD 0 - 1 / 2) * (y.headD 0 - 1 / 2),
   [1 / 2], [1 / 2]⟩

/-- Concrete optimizer oracles for witnesses: the seeded strategies evaluate
the objective at their seed, the unseeded differential evolution at the
midpoint of its bounds. -/
def toyMin : Minimizers :=
  ⟨fun f y0 _ => f y0,
   fun f _ y0 _ _ => f y0,
   fun f bounds => f (bounds.map (fun p => (p.1 + p.2) / 2))⟩

/-- A toy instance state with `D_x = D_y = 1` and the saddle point known. -/
def toyState : ProblemState :=
  ⟨1, 1, 0, 0, some [1 / 2], some [1 / 2]⟩

/-- C4 counterexample: with `D_x = 1`, passing an `x` of length 3 to
`evaluate` is not rejected — the call evaluates the objective on the
mismatched input (through the preprocessed evaluator) and increments the
counter, instead of erroring out. -/
theorem evaluate_dim_mismatch_cex :
    [(0 : ℚ), 0, 0].length ≠ toyState.D_x
    ∧ (evaluate toyFns toyState [0, 0, 0] [0] true).1
        = toyFns.call_fct [0, 0, 0] [0]
    ∧ get_num_fevals (evaluate toyFns toyState [0, 0, 0] [0] true).2
        = get_num_fevals toyState + 1 :=
  ⟨by decide, rfl, rfl⟩

/-- C4 (amended): `evaluate` itself performs no dimension check — it
evaluates whatever inputs it is given through the preprocessed evaluator;
the dimension-mismatch rejection happens in `relative_robustness`, whose
asserts error out before any evaluation (the state, in particular the
counter, is untouched) whenever `x0` or `y0` has the wrong length. -/
theorem evaluate_dim_mismatch_amended (M : Minimizers) (P : ProblemFns)
    (s : ProblemState) (x y : List ℚ) (b : Bool)
    (h : ¬ x.length = s.D_x ∨ ¬ y.length = s.D_y) :
    (evaluate P s x y b).1 = P.call_fct x y
    ∧ relative_robustness M P s x y = (Except.error "Invalid dimensions", s) := by
  refine ⟨rfl, ?_⟩
  unfold relative_robustness
  rcases h with h | h
  · rw [if_neg h]
  · by_cases hx : x.length = s.D_x
    · rw [if_pos hx, if_neg h]
    · rw [if_neg hx]

/-- A minimal heap of numpy arrays, to express the aliasing behaviour of
`.copy()`: an array value is a reference (an index) into a store of
contents. -/
structure NpHeap where
  arrays : List (List ℚ)

/-- Read the contents behind a reference. -/
def NpHeap.read (h : NpHeap) (r : Nat) : List ℚ :=
  h.arrays.getD r []

/-- In-place mutation of the array behind a reference (what a caller does
when it mutates a returned numpy array). -/
def NpHeap.write (h : NpHeap) (r : Nat) (v : List ℚ) : NpHeap :=
  ⟨h.arrays.set r v⟩

/-- Allocate a fresh array holding a copy of the contents behind `r` (numpy
`.copy()`), returning the fresh reference and the grown heap. -/
def NpHeap.copyAlloc (h : NpHeap) (r : Nat) : Nat × NpHeap :=
  (h.arrays.length, ⟨h.arrays ++ [h.read r]⟩)

/-- The `_x_opt` / `_y_opt` fields of a problem instance, as heap
references (`None` when the saddle point is unknown). -/
structure HeapProblem where
  x_opt : Option Nat
  y_opt : Option Nat

/-- Source lines 20-24 over the heap model: `get_x_opt` raises when `_x_opt`
is `None` and otherwise returns `self._x_opt.copy()`. -/
def HeapProblem.get_x_opt (p : HeapProblem) (h : NpHeap) :
    Except String (Nat × NpHeap) :=
  match p.x_opt with
  | none => Except.error "saddle point solution is not known, this function should not be called for this problem"
  | some r => Except.ok (h.copyAlloc r)

/-- Source lines 26-30 over the heap model: `get_y_opt`, symmetric to
`get_x_opt`. -/
def HeapProblem.get_y_opt (p : HeapProblem) (h : NpHeap) :
    Except String (Nat × NpHeap) :=
  match p.y_opt with
  | none => Except.error "saddle point solution is not known, this function should not be called for this problem"
  | some r => Except.ok (h.copyAlloc r)

theorem getD_append_lt {α : Type} (d : α) :
    ∀ (l l' : List α) (i : Nat), i < l.length → (l ++ l').getD i d = l.getD i d
  | [], _, i, h => absurd h (Nat.not_lt_zero i)
  | _ :: _, _, 0, _ => rfl
  | _ :: l, l', i + 1, h => getD_append_lt d l l' i (Nat.lt_of_succ_lt_succ h)

theorem getD_append_length {α : Type} (d : α) :
    ∀ (l : List α) (c : α), (l ++ [c]).getD l.length d = c
  | [], _ => rfl
  | _ :: l, c => getD_append_length d l c

theorem set_append_length {α : Type} :
    ∀ (l : List α) (c v : α), (l ++ [c]).set l.length v = l ++ [v]
  | [], _, _ => rfl
  | a :: l, c, v => congrArg (List.cons a) (set_append_length l c v)

/-- C8: `get_x_opt` (respectively `get_y_opt`) fails with the
"solution is not known" error whenever the corresponding optimum is absent;
when present it returns a defensive copy: the returned reference is fresh
(distinct from the stored one), its contents equal the optimum's, and after
the caller mutates the returned array arbitrarily, a subsequent call still
returns the original contents. -/
theorem get_opt_defensive_copy (p : HeapProblem) (h : NpHeap) (rx ry : Nat)
    (hx : p.x_opt = some rx) (hrx : rx < h.arrays.length)
    (hy : p.y_opt = some ry) (hry : ry < h.arrays.length) :
    (∀ q : HeapProblem, q.x_opt = none → q.get_x_opt h
      = Except.error "saddle point solution is not known, this function should not be called for this problem")
    ∧ (∀ q : HeapProblem, q.y_opt = none → q.get_y_opt h
      = Except.error "saddle point solution is not known, this function should not be called for this problem")
    ∧ (∀ r1 h1, p.get_x_opt h = Except.ok (r1, h1) →
        r1 ≠ rx ∧ h1.read r1 = h.read rx
        ∧ ∀ v r2 h2, p.get_x_opt (h1.write r1 v) = Except.ok (r2, h2) →
            h2.read r2 = h.read rx)
    ∧ (∀ r1 h1, p.get_y_opt h = Except.ok (r1, h1) →
        r1 ≠ ry ∧ h1.read r1 = h.read ry
        ∧ ∀ v r2 h2, p.get_y_opt (h1.write r1 v) = Except.ok (r2, h2) →
            h2.read r2 = h.read ry) := by
  have key : ∀ (r : Nat), r < h.arrays.length →
      ∀ r1 h1, (Except.ok (h.copyAlloc r) : Except String (Nat × NpHeap)) = Except.ok (r1, h1) →
        r1 ≠ r ∧ h1.read r1 = h.read r
        ∧ ∀ (v : List ℚ) r2 h2,
            (Except.ok ((h1.write r1 v).copyAlloc r) : Except String (Nat × NpHeap)) = Except.ok (r2, h2) →
            h2.read r2 = h.read r := by
    intro r hr r1 h1 hok
    have hpair : h.copyAlloc r = (r1, h1) := by
      injection hok
    have hr1 : r1 = h.arrays.length := (congrArg Prod.fst hpair).symm
    have hh1 : h1 = (⟨h.arrays ++ [h.read r]⟩ : NpHeap) := (congrArg Prod.snd hpair).symm
    subst hr1
    subst hh1
    refine ⟨(Nat.ne_of_lt hr).symm, getD_append_length [] h.arrays (h.read r), ?_⟩
    intro v r2 h2 hok2
    have hw : NpHeap.write ⟨h.arrays ++ [h.read r]⟩ h.arrays.length v
        = ⟨h.arrays ++ [v]⟩ := by
      show NpHeap.mk ((h.arrays ++ [h.read r]).set h.arrays.length v) = _
      rw [set_append_length]
    rw [hw] at hok2
    have hpair2 : (⟨h.arrays ++ [v]⟩ : NpHeap).copyAlloc r = (r2, h2) := by
      injection hok2
    have hread : (⟨h.arrays ++ [v]⟩ : NpHeap).read r = h.read r :=
      getD_append_lt [] h.arrays [v] r hr
    have hr2 : r2 = (h.arrays ++ [v]).length := (congrArg Prod.fst hpair2).symm
    have hh2 : h2 = (⟨(h.arrays ++ [v]) ++ [(⟨h.arrays ++ [v]⟩ : NpHeap).read r]⟩ : NpHeap) :=
      (congrArg Prod.snd hpair2).symm
    subst hr2
    subst hh2
    rw [show (⟨(h.arrays ++ [v]) ++ [(⟨h.arrays ++ [v]⟩ : NpHeap).read r]⟩ : NpHeap).read
        (h.arrays ++ [v]).length = (⟨h.arrays ++ [v]⟩ : NpHeap).read r from
      getD_append_length [] (h.arrays ++ [v]) _]
    exact hread
  refine ⟨fun q hq => ?_, fun q hq => ?_, ?_, ?_⟩
  · unfold HeapProblem.get_x_opt
    rw [hq]
  · unfold HeapProblem.get_y_opt
    rw [hq]
  · intro r1 h1 hok
    have : (Except.ok (h.copyAlloc rx) : Except String (Nat × NpHeap)) = Except.ok (r1, h1) := by
      unfold HeapProblem.get_x_opt at hok
      rw [hx] at hok
      exact hok
    refine (key rx hrx r1 h1 this).imp id (And.imp id ?_)
    intro hmut v r2 h2 hok2
    apply hmut v r2 h2
    unfold HeapProblem.get_x_opt at hok2
    rw [hx] at hok2
    exact hok2
  · intro r1 h1 hok
    have : (Except.ok (h.copyAlloc ry) : Except String (Nat × NpHeap)) = Except.ok (r1, h1) := by
      unfold HeapProblem.get_y_opt at hok
      rw [hy] at hok
      exact hok
    refine (key ry hry r1 h1 this).imp id (And.imp id ?_)
    intro hmut v r2 h2 hok2
    apply hmut v r2 h2
    unfold HeapProblem.get_y_opt at hok2
    rw [hy] at hok2
    exact hok2

/-- Witness for C2 at the toy instance: at `x0 = [0]`, `y0 = [1/2]` the
ratio is 0 and `relative_robustness` returns it. -/
theorem relative_robustness_spec_witness :
    ([(0 : ℚ)].length = toyState.D_x
      ∧ [(1 : ℚ) / 2].length = toyState.D_y
      ∧ (0 : ℚ) = (worst toyMin toyFns (evaluate toyFns toyState [0] [1 / 2] true).2 [0] [1 / 2]
            - (evaluate toyFns toyState [0] [1 / 2] true).1)
          / (|(evaluate toyFns toyState [0] [1 / 2] true).1| + eps32))
    ∧ (relative_robustness toyMin toyFns toyState [0] [1 / 2]).1 = Except.ok 0 := by
  have hr : (0 : ℚ) = (worst toyMin toyFns (evaluate toyFns toyState [0] [1 / 2] true).2 [0] [1 / 2]
        - (evaluate toyFns toyState [0] [1 / 2] true).1)
      / (|(evaluate toyFns toyState [0] [1 / 2] true).1| + eps32) := by
    norm_num [worst, toyMin, toyFns, evaluate, f_y_obj, unitBounds, toyState, eps32,
      List.headD, List.replicate]
  exact ⟨⟨rfl, rfl, hr⟩,
    (relative_robustness_spec toyMin toyFns toyState [0] [1 / 2] 0 rfl rfl hr).1
      (le_refl 0)⟩

/-- Witness for the amended C4 at the toy instance: a length-3 `x` on a
problem with `D_x = 1` is evaluated by `evaluate` but rejected by
`relative_robustness`. -/
theorem evaluate_dim_mismatch_amended_witness :
    (¬ [(0 : ℚ), 0, 0].length = toyState.D_x ∨ ¬ [(0 : ℚ)].length = toyState.D_y)
    ∧ (evaluate toyFns toyState [0, 0, 0] [0] true).1 = toyFns.call_fct [0, 0, 0] [0]
    ∧ relative_robustness toyMin toyFns toyState [0, 0, 0] [0]
        = (Except.error "Invalid dimensions", toyState) :=
  ⟨Or.inl (by decide),
    evaluate_dim_mismatch_amended toyMin toyFns toyState [0, 0, 0] [0] true
      (Or.inl (by decide))⟩

/-- Witness for C6 at the toy instance: at `x0 = [0]`, `y0 = [1]` the raw
loss is negative (`-2097152`), so `relative_loss` warns and returns 0. -/
theorem relative_loss_spec_witness :
    (toyState.x_opt = some [(1 : ℚ) / 2]
      ∧ toyState.y_opt = some [(1 : ℚ) / 2]
      ∧ (-2097152 : ℚ) = (toyFns.call_fct [0] [1] - toyFns.fct [1 / 2] [1 / 2])
          / (|toyFns.fct [1 / 2] [1 / 2]| + eps32))
    ∧ (relative_loss toyFns toyState [0] [1]).1 = Except.ok (0, true) := by
  have hl : (-2097152 : ℚ) = (toyFns.call_fct [0] [1] - toyFns.fct [1 / 2] [1 / 2])
      / (|toyFns.fct [1 / 2] [1 / 2]| + eps32) := by
    norm_num [toyFns, eps32, List.headD]
  exact ⟨⟨rfl, rfl, hl⟩,
    (relative_loss_spec toyFns toyState [0] [1] [1 / 2] [1 / 2] (-2097152) rfl rfl
      hl).2.1 (by norm_num)⟩

/-- Witness for C7 at the toy instance: `mse` at the unit-cube optimum is
exactly `(0, 0)`. -/
theorem mse_spec_witness :
    (toyState.x_opt ≠ none ∧ toyState.y_opt ≠ none)
    ∧ mse toyFns toyState (get_unit_x_opt toyFns) (get_unit_y_opt toyFns)
        = Except.ok (0, 0) :=
  ⟨⟨by decide, by decide⟩,
    (mse_spec toyFns toyState [0] [1] (by decide) (by decide) rfl rfl
      (by decide) (by decide)).2.2⟩

/-- Witness for C8 at a concrete heap: the optimum `[1/2]` lives at
reference 0 of a two-array heap; `get_x_opt` hands out reference 2, and
after overwriting it with `[9]` a second `get_x_opt` still reads `[1/2]`. -/
theorem get_opt_defensive_copy_witness :
    (HeapProblem.x_opt ⟨some 0, some 1⟩ = some 0 ∧ (0 : Nat) < 2
      ∧ HeapProblem.y_opt ⟨some 0, some 1⟩ = some 1 ∧ (1 : Nat) < 2)
    ∧ (2 : Nat) ≠ 0
    ∧ NpHeap.read ⟨[[(1 : ℚ) / 2], [1 / 3], [9], [1 / 2]]⟩ 3
        = NpHeap.read ⟨[[(1 : ℚ) / 2], [1 / 3]]⟩ 0 := by
  have h := get_opt_defensive_copy ⟨some 0, some 1⟩ ⟨[[(1 : ℚ) / 2], [1 / 3]]⟩ 0 1
    rfl (by decide) rfl (by decide)
  obtain ⟨-, -, hxc, -⟩ := h
  obtain ⟨hne, -, hmut⟩ := hxc 2 ⟨[[(1 : ℚ) / 2], [1 / 3], [1 / 2]]⟩ rfl
  exact ⟨⟨rfl, by decide, rfl, by decide⟩, hne,
    hmut [9] 3 ⟨[[(1 : ℚ) / 2], [1 / 3], [9], [1 / 2]]⟩ rfl⟩

/-- Witness for C10 at the toy instance: `relative_loss` leaves the state,
and hence the counter, untouched. -/
theorem relative_loss_frame_witness :
    toyState.x_opt = some [(1 : ℚ) / 2]
    ∧ (relative_loss toyFns toyState [0] [0]).2 = toyState
    ∧ get_num_fevals (relative_loss toyFns toyState [0] [0]).2
        = get_num_fevals toyState :=
  ⟨rfl, (relative_loss_frame toyFns toyState [0] [0] [1 / 2] rfl).1,
    (relative_loss_frame toyFns toyState [0] [0] [1 / 2] rfl).2⟩

end SaddlePointProblem
